import Mathlib

/-!
Shallow embedding of the gym-tracker core (1RM derivation, input validation,
goal progress, streaks, frequency analysis, goal refresh, store boundary)
for verification of the specification claims.

Conventions of the embedding:
* Python floats are modelled as rationals (ℚ), Python ints as ℤ
  (counts that are naturals by construction use ℕ).
* Calendar dates are modelled as integer day numbers, with day 0 a Sunday
  (so SQLite's strftime weekday, Sunday = 0, is the day number mod 7).
* SQL result sets are modelled as Lean lists; a fallible store is modelled
  as an Except value fed to the store-boundary functions.
-/

namespace GymTracker

/-- Models utils/constants.py WEIGHT_MIN = 0.0. -/
def WEIGHT_MIN : ℚ := 0

/-- Models utils/constants.py WEIGHT_MAX = 500.0. -/
def WEIGHT_MAX : ℚ := 500

/-- Models utils/constants.py REPS_MIN = 1. -/
def REPS_MIN : ℤ := 1

/-- Models utils/constants.py REPS_MAX = 50. -/
def REPS_MAX : ℤ := 50

/-- Models utils/calculations.py calculate_one_rm (Epley formula):
if reps == 1 return weight, else weight * (1 + reps / 30). -/
def calculate_one_rm (weight : ℚ) (reps : ℤ) : ℚ :=
  if reps = 1 then weight else weight * (1 + (reps : ℚ) / 30)

/-- Models utils/validation.py validate_weight.  The 0.5 kg step check
round(weight * 2) != weight * 2 holds for a rational exactly when
weight * 2 is not an integer, i.e. its reduced denominator is not 1
(Python round is round-half-to-even, a fixed point exactly on integers). -/
def validate_weight (weight : ℚ) : Bool × Option String :=
  if weight < WEIGHT_MIN then (false, some "weight below minimum")
  else if weight > WEIGHT_MAX then (false, some "weight above maximum")
  else if (weight * 2).den ≠ 1 then (false, some "weight must be a multiple of 0.5 kg")
  else (true, none)

/-- Models utils/validation.py validate_reps. -/
def validate_reps (reps : ℤ) : Bool × Option String :=
  if reps < REPS_MIN then (false, some "reps below minimum")
  else if reps > REPS_MAX then (false, some "reps above maximum")
  else (true, none)

/-- Models Python int() applied to a rational: truncation toward zero. -/
def pyInt (q : ℚ) : ℤ :=
  if 0 ≤ q then ⌊q⌋ else ⌈q⌉

/-- Models database/models.py Goal (the v2, three-set goal model).
The set counters are naturals (they count achieved/target sets); the
string metadata fields (target_month, notes, timestamps) are carried
verbatim. -/
structure Goal where
  id : Option ℤ
  exercise_id : ℤ
  target_weight : ℚ
  target_reps : ℤ
  target_sets : ℕ
  current_achieved_sets : ℕ
  current_max_weight : ℚ
  target_month : String
  achieved : Bool
  notes : Option String := none

/-- Models Goal.progress_percentage: 0 when target_sets == 0, else
min(int((current_achieved_sets / target_sets) * 100), 100). -/
def Goal.progress_percentage (g : Goal) : ℤ :=
  if g.target_sets = 0 then 0
  else min (pyInt (((g.current_achieved_sets : ℚ) / (g.target_sets : ℚ)) * 100)) 100

/-- Models Goal.is_achieved: current_achieved_sets >= target_sets or achieved. -/
def Goal.is_achieved (g : Goal) : Bool :=
  decide (g.target_sets ≤ g.current_achieved_sets) || g.achieved

/-- Models Goal.remaining_sets: max(0, target_sets - current_achieved_sets),
computed in ℤ as Python does on ints. -/
def Goal.remaining_sets (g : Goal) : ℤ :=
  max 0 ((g.target_sets : ℤ) - (g.current_achieved_sets : ℤ))

/-- Models the legacy (v1) Goal dataclass of db_manager.py (the dead-code
block at the end of the file) and the corresponding goals-table row used
by the goal-refresh operations: a single current/target 1RM pair.  The
notes/timestamp metadata, unused by the modelled operations, is omitted. -/
structure LegacyGoal where
  id : ℤ
  exercise_id : ℤ
  target_weight : ℚ
  current_weight : ℚ
  target_month : String
  achieved : Bool

/-- Models the legacy Goal.progress_percentage: 0 when target_weight <= 0,
else min(int((current_weight / target_weight) * 100), 100). -/
def LegacyGoal.progress_percentage (g : LegacyGoal) : ℤ :=
  if g.target_weight ≤ 0 then 0
  else min (pyInt ((g.current_weight / g.target_weight) * 100)) 100

/-- Models the legacy Goal.remaining_weight: max(0, target - current). -/
def LegacyGoal.remaining_weight (g : LegacyGoal) : ℚ :=
  max 0 (g.target_weight - g.current_weight)

/-- Models the loop of db_manager.py _calculate_current_streak: walking the
distinct workout dates in descending order, a date extends the streak when
it equals the cursor date or the day before it, and the cursor then moves
to the day before that workout date; the first non-matching date stops the
walk. -/
def streakScan (streak : ℤ) (current_date : ℤ) : List ℤ → ℤ
  | [] => streak
  | workout_date :: rest =>
    if workout_date = current_date ∨ workout_date = current_date - 1 then
      streakScan (streak + 1) (workout_date - 1) rest
    else streak

/-- Models db_manager.py _calculate_current_streak, whose query yields the
distinct workout dates in descending order limited to 30 rows (LIMIT 30 is
applied by the caller-side query, see get_workout_statistics): an empty
result gives 0, otherwise the walk starts at today with streak 0. -/
def calculate_current_streak (today : ℤ) (dates : List ℤ) : ℤ :=
  if dates = [] then 0 else streakScan 0 today dates

/-- Models the loop of db_manager.py _calculate_max_streak over the distinct
dates in ascending order: a date exactly one day after its predecessor
extends the current run, anything else restarts it at 1. -/
def maxStreakScan (max_streak : ℤ) (current_streak : ℤ) (prev : ℤ) : List ℤ → ℤ
  | [] => max_streak
  | curr :: rest =>
    if curr = prev + 1 then
      maxStreakScan (max max_streak (current_streak + 1)) (current_streak + 1) curr rest
    else
      maxStreakScan max_streak 1 curr rest

/-- Models db_manager.py _calculate_max_streak: 0 for no dates, otherwise
the longest run of calendar-consecutive dates, scanning ascending. -/
def calculate_max_streak (dates : List ℤ) : ℤ :=
  match dates with
  | [] => 0
  | d :: rest => maxStreakScan 1 1 d rest

/-- Models SQLite strftime %w on a date: the weekday with Sunday = 0.
Dates are integer day numbers with day 0 a Sunday, so this is mod 7. -/
def sqlite_weekday (d : ℤ) : ℕ := (d % 7).toNat

/-- Models the CASE expression of get_frequency_analysis re-mapping the
SQLite weekday (Sunday = 0) to the Monday = 0 … Sunday = 6 convention:
0 becomes 6 and k becomes k - 1 for k in 1..6. -/
def remap_weekday (w : ℕ) : ℕ := if w = 0 then 6 else w - 1

/-- Models db_manager.py get_frequency_analysis on the workout dates in the
period: the SQL groups the distinct workout dates by re-mapped weekday, and
the week_data post-pass fills the seven buckets 0..6, zero for weekdays
with no rows.  Each output pair is (day index, distinct-date count). -/
def get_frequency_analysis (dates : List ℤ) : List (ℕ × ℕ) :=
  (List.range 7).map (fun i =>
    (i, (dates.dedup.filter (fun d => remap_weekday (sqlite_weekday d) == i)).length))

/-- Models the sets-table row (database/models.py Set): one_rm is the
nullable stored one-rep-max column. -/
structure SetRow where
  workout_id : ℤ
  exercise_id : ℤ
  set_number : ℤ
  weight : ℚ
  reps : ℤ
  one_rm : Option ℚ := none

/-- Models db_manager.py add_set_safe on the success path: the INSERT stores
the row with one_rm computed at insert time by calculate_one_rm from the
given weight and reps (any one_rm already present on the input is ignored),
appending it to the sets table, and the function returns True. -/
def add_set_safe (sets : List SetRow) (set_data : SetRow) : List SetRow × Bool :=
  let one_rm := calculate_one_rm set_data.weight set_data.reps
  (sets ++ [{ set_data with one_rm := some one_rm }], true)

/-- Models the SELECT MAX(s.one_rm) … WHERE s.exercise_id = ? AND s.one_rm
IS NOT NULL aggregate used by both goal-refresh operations: the maximum
stored one-rep-max over the exercise, none when no non-null row exists. -/
def max_one_rm_for_exercise (sets : List SetRow) (exercise_id : ℤ) : Option ℚ :=
  ((sets.filter (fun s => s.exercise_id == exercise_id)).filterMap (fun s => s.one_rm)).max?

/-- Models db_manager.py update_goal_current_weight_from_records (the
single-goal refresh): look the goal up by id; fetch the max one-rep-max of
its exercise; the Python guard `if row and row[0]` runs the UPDATE only
when that maximum exists and is non-zero (0.0 is falsy), in which case
current_weight is overwritten unconditionally and True is returned. -/
def update_goal_current_weight_from_records (sets : List SetRow)
    (goals : List LegacyGoal) (goal_id : ℤ) : List LegacyGoal × Bool :=
  match goals.find? (fun g => g.id == goal_id) with
  | none => (goals, false)
  | some g =>
    match max_one_rm_for_exercise sets g.exercise_id with
    | some m =>
      if m ≠ 0 then
        (goals.map (fun h => if h.id == goal_id then { h with current_weight := m } else h),
         true)
      else (goals, false)
    | none => (goals, false)

/-- Models one iteration of the loop in db_manager.py
update_goal_progress_from_recent_records: the loop visits only unachieved
goals (the WHERE g.achieved = 0 filter), and the guard
`if row and row[0] and float(row[0]) > current_weight` updates the goal
only when the maximum exists, is non-zero, and strictly exceeds the stored
current_weight.  The Bool records whether this goal was counted updated. -/
def bulk_goal_update_step (sets : List SetRow) (g : LegacyGoal) : LegacyGoal × Bool :=
  if g.achieved then (g, false)
  else
    match max_one_rm_for_exercise sets g.exercise_id with
    | some m =>
      if m ≠ 0 ∧ g.current_weight < m then ({ g with current_weight := m }, true)
      else (g, false)
    | none => (g, false)

/-- Models db_manager.py update_goal_progress_from_recent_records (the bulk
refresh): every goal is replaced by its stepped version (achieved goals are
untouched), and the returned count is the number of goals updated. -/
def update_goal_progress_from_recent_records (sets : List SetRow)
    (goals : List LegacyGoal) : List LegacyGoal × ℕ :=
  (goals.map (fun g => (bulk_goal_update_step sets g).1),
   (goals.filter (fun g => (bulk_goal_update_step sets g).2)).length)

/-- Models the persistence failures SQLite can raise at the store boundary. -/
inductive DbError where
  | locked : DbError
  | ioFailure : DbError
  | constraintViolation : DbError
deriving DecidableEq

/-- Models an exercises-table row (database/models.py Exercise). -/
structure ExerciseRow where
  id : ℤ
  name : String
  variation : String
  category : String

/-- Models a workouts-table row (database/models.py Workout, notes omitted). -/
structure WorkoutRow where
  id : ℤ
  date : ℤ

/-- Models the whole store read by get_workout_statistics, together with the
current date used by the streak walk and the this-month filter. -/
structure Db where
  workouts : List WorkoutRow
  sets : List SetRow
  today : ℤ

/-- Models one row of the get_best_records result: per-exercise maxima of
weight, reps and stored one-rep-max (the latter nullable, as MAX over a
nullable column). -/
structure BestRecord where
  exercise_name : String
  max_weight : ℚ
  max_reps : ℤ
  max_one_rm : Option ℚ
deriving DecidableEq

/-- Orders best-record rows by max one-rep-max descending, nulls last,
modelling the ORDER BY max_one_rm DESC of get_best_records. -/
def bestRecordGe (a b : BestRecord) : Bool :=
  match a.max_one_rm, b.max_one_rm with
  | some x, some y => y ≤ x
  | some _, none => true
  | none, some _ => false
  | none, none => true

/-- Inserts a best-record row into a list sorted by bestRecordGe. -/
def insertBestRecord (x : BestRecord) : List BestRecord → List BestRecord
  | [] => [x]
  | y :: ys => if bestRecordGe x y then x :: y :: ys else y :: insertBestRecord x ys

/-- Sorts best-record rows by bestRecordGe (insertion sort), modelling the
ORDER BY max_one_rm DESC of get_best_records. -/
def sortBestRecords : List BestRecord → List BestRecord
  | [] => []
  | x :: xs => insertBestRecord x (sortBestRecords xs)

/-- Inserts a date into a descending-sorted list, modelling ORDER BY date DESC. -/
def insertDesc (x : ℤ) : List ℤ → List ℤ
  | [] => [x]
  | y :: ys => if y ≤ x then x :: y :: ys else y :: insertDesc x ys

/-- Sorts dates descending (insertion sort). -/
def sortDesc : List ℤ → List ℤ
  | [] => []
  | x :: xs => insertDesc x (sortDesc xs)

/-- Inserts a date into an ascending-sorted list, modelling ORDER BY date. -/
def insertAsc (x : ℤ) : List ℤ → List ℤ
  | [] => [x]
  | y :: ys => if x ≤ y then x :: y :: ys else y :: insertAsc x ys

/-- Sorts dates ascending (insertion sort). -/
def sortAsc : List ℤ → List ℤ
  | [] => []
  | x :: xs => insertAsc x (sortAsc xs)

/-- Models strftime %Y-%m on a day number: the (year, month) pair of the
proleptic Gregorian calendar, day 0 being 1970-01-01 shifted to a Sunday
epoch; computed with the standard civil-from-days conversion.  Only used
to group dates into calendar months. -/
def yearMonth (z0 : ℤ) : ℤ × ℤ :=
  let z := z0 + 719468
  let era := z / 146097
  let doe := z - era * 146097
  let yoe := (doe - doe / 1460 + doe / 36524 - doe / 146096) / 365
  let doy := doe - (365 * yoe + yoe / 4 - yoe / 100)
  let mp := (5 * doy + 2) / 153
  let m := mp + (if mp < 10 then 3 else -9)
  ((yoe + era * 400) + (if m ≤ 2 then 1 else 0), m)

/-- Models db_manager.py get_best_records: on a persistence error the
exception handler logs and returns the empty list; on success the rows are
grouped by exercise_id (groups joined against the exercises table for the
display name), the three maxima are taken independently per group, and the
result is ordered by max one-rep-max descending, top 10. -/
def get_best_records (q : Except DbError (List SetRow × List ExerciseRow)) :
    List BestRecord :=
  match q with
  | .error _ => []
  | .ok (sets, exercises) =>
    let joined := sets.filterMap (fun s =>
      (exercises.find? (fun e => e.id == s.exercise_id)).map (fun e => (s, e)))
    let exIds := (joined.map (fun p => p.1.exercise_id)).dedup
    let records := exIds.filterMap (fun ex =>
      let group := joined.filter (fun p => p.1.exercise_id == ex)
      match group.head? with
      | none => none
      | some first =>
        some { exercise_name := first.2.name ++ "（" ++ first.2.variation ++ "）"
               max_weight := ((group.map (fun p => p.1.weight)).max?).getD 0
               max_reps := ((group.map (fun p => p.1.reps)).max?).getD 0
               max_one_rm := ((group.filterMap (fun p => p.1.one_rm)).max?) })
    ((sortBestRecords records).take 10)

/-- Models the get_workout_statistics result dict. -/
structure WorkoutStats where
  total_workouts : ℕ
  total_sets : ℕ
  avg_sets_per_workout : ℚ
  current_streak : ℤ
  max_streak : ℤ
  this_month_workouts : ℕ
  avg_weight : ℚ
  total_volume : ℚ
deriving DecidableEq

/-- Models the all-zero dict returned by the get_workout_statistics
exception handler. -/
def zeroStats : WorkoutStats :=
  { total_workouts := 0, total_sets := 0, avg_sets_per_workout := 0,
    current_streak := 0, max_streak := 0, this_month_workouts := 0,
    avg_weight := 0, total_volume := 0 }

/-- Models db_manager.py get_workout_statistics: on a persistence error the
exception handler logs and returns the all-zero dict; on success each field
is the corresponding SQL aggregate (COUNT DISTINCT id, COUNT sets, the two
streak walks over distinct dates, the this-month distinct-date count, AVG
of positive weights with the Python `result and result[0]` falsy-to-0
guard, and SUM of weight * reps likewise defaulting to 0). -/
def get_workout_statistics (q : Except DbError Db) : WorkoutStats :=
  match q with
  | .error _ => zeroStats
  | .ok db =>
    let total_workouts := ((db.workouts.map (fun w => w.id)).dedup).length
    let total_sets := db.sets.length
    let dates := (db.workouts.map (fun w => w.date)).dedup
    let posWeights := (db.sets.map (fun s => s.weight)).filter (fun w => 0 < w)
    let avgWeight : ℚ :=
      if posWeights.length = 0 then 0 else posWeights.sum / (posWeights.length : ℚ)
    { total_workouts := total_workouts
      total_sets := total_sets
      avg_sets_per_workout :=
        if 0 < total_workouts then (total_sets : ℚ) / (total_workouts : ℚ) else 0
      current_streak := calculate_current_streak db.today ((sortDesc dates).take 30)
      max_streak := calculate_max_streak (sortAsc dates)
      this_month_workouts :=
        (dates.filter (fun d => yearMonth d = yearMonth db.today)).length
      avg_weight := if avgWeight = 0 then 0 else avgWeight
      total_volume := (db.sets.map (fun s => s.weight * (s.reps : ℚ))).sum }

/-- Truncation toward zero agrees with the floor on non-negative rationals. -/
lemma pyInt_eq_floor (q : ℚ) (hq : 0 ≤ q) : pyInt q = ⌊q⌋ := if_pos hq

/-- C1: for every weight > 0 and integer reps >= 1, the one-rep-max
derivation returns the weight unchanged at reps == 1 and
weight * (1 + reps / 30) at reps > 1, and it is monotonically increasing
in the weight and in the reps. -/
theorem one_rm_spec (w w2 : ℚ) (r r2 : ℤ) (hw : 0 < w) (hr : 1 ≤ r) :
    calculate_one_rm w 1 = w ∧
    (1 < r → calculate_one_rm w r = w * (1 + (r : ℚ) / 30)) ∧
    (w ≤ w2 → calculate_one_rm w r ≤ calculate_one_rm w2 r) ∧
    (r ≤ r2 → calculate_one_rm w r ≤ calculate_one_rm w r2) := by
  have hr30 : (0 : ℚ) < 1 + (r : ℚ) / 30 := by
    have : (1 : ℚ) ≤ (r : ℚ) := by exact_mod_cast hr
    linarith
  refine ⟨by simp [calculate_one_rm], ?_, ?_, ?_⟩
  · intro h1
    rw [calculate_one_rm, if_neg (by omega)]
  · intro hww
    by_cases h1 : r = 1
    · simpa [calculate_one_rm, h1] using hww
    · rw [calculate_one_rm, if_neg h1, calculate_one_rm, if_neg h1]
      exact mul_le_mul_of_nonneg_right hww hr30.le
  · intro hrr
    have hc : (r : ℚ) ≤ (r2 : ℚ) := by exact_mod_cast hrr
    by_cases h1 : r = 1
    · by_cases h2 : r2 = 1
      · rw [h1, h2]
      · rw [calculate_one_rm, if_pos h1, calculate_one_rm, if_neg h2]
        have hr2 : (1 : ℚ) ≤ (r2 : ℚ) := by
          have : (1 : ℤ) ≤ r2 := le_trans hr hrr
          exact_mod_cast this
        nlinarith
    · have h2 : r2 ≠ 1 := by omega
      rw [calculate_one_rm, if_neg h1, calculate_one_rm, if_neg h2]
      have : (1 : ℚ) + (r : ℚ) / 30 ≤ 1 + (r2 : ℚ) / 30 := by linarith
      exact mul_le_mul_of_nonneg_left this hw.le

/-- Witness for one_rm_spec at weight 100 (to 110) and reps 2 (to 3). -/
theorem one_rm_spec_witness :
    calculate_one_rm 100 1 = 100 ∧
    ((1 : ℤ) < 2 → calculate_one_rm 100 2 = 100 * (1 + ((2 : ℤ) : ℚ) / 30)) ∧
    ((100 : ℚ) ≤ 110 → calculate_one_rm 100 2 ≤ calculate_one_rm 110 2) ∧
    ((2 : ℤ) ≤ 3 → calculate_one_rm 100 2 ≤ calculate_one_rm 100 3) :=
  one_rm_spec 100 110 2 3 (by norm_num) (by norm_num)

/-- C2: inserting a set stores the Epley one-rep-max computed at insert
time from the set's weight and reps, so inserting (weight = 100, reps = 5)
and re-reading the stored row yields the one-rep-max
100 * (1 + 5 / 30) = 350 / 3 ≈ 116.67 exactly (floating point is modelled
by exact rational arithmetic). -/
theorem add_set_stores_epley_one_rm (sets : List SetRow) (s : SetRow)
    (hw : s.weight = 100) (hr : s.reps = 5) :
    (add_set_safe sets s).1.getLast?
        = some { s with one_rm := some (100 * (1 + (5 : ℚ) / 30)) } ∧
    100 * (1 + (5 : ℚ) / 30) = 350 / 3 := by
  constructor
  · rw [add_set_safe]
    have : calculate_one_rm s.weight s.reps = 100 * (1 + (5 : ℚ) / 30) := by
      rw [hw, hr, calculate_one_rm, if_neg (by omega)]
      norm_num
    simp [this]
  · norm_num

/-- Witness for add_set_stores_epley_one_rm on the empty table. -/
theorem add_set_stores_epley_one_rm_witness :
    (add_set_safe [] ⟨1, 1, 1, 100, 5, none⟩).1.getLast?
        = some { workout_id := 1, exercise_id := 1, set_number := 1,
                 weight := 100, reps := 5,
                 one_rm := some (100 * (1 + (5 : ℚ) / 30)) } ∧
    100 * (1 + (5 : ℚ) / 30) = 350 / 3 :=
  add_set_stores_epley_one_rm [] ⟨1, 1, 1, 100, 5, none⟩ rfl rfl

/-- C3: for a v2 goal with target_sets >= 1, the progress percentage is
min(floor(current_achieved_sets / target_sets * 100), 100) and clamps at
100 once current_achieved_sets >= target_sets; remaining_sets is
max(0, target_sets - current_achieved_sets); and is_achieved holds exactly
when current_achieved_sets >= target_sets or the explicit achieved flag is
set. -/
theorem goal_v2_progress_spec (g : Goal) (ht : 1 ≤ g.target_sets) :
    g.progress_percentage
        = min ⌊((g.current_achieved_sets : ℚ) / (g.target_sets : ℚ)) * 100⌋ 100 ∧
    (g.target_sets ≤ g.current_achieved_sets → g.progress_percentage = 100) ∧
    g.remaining_sets = max 0 ((g.target_sets : ℤ) - (g.current_achieved_sets : ℤ)) ∧
    (g.is_achieved = true ↔ g.target_sets ≤ g.current_achieved_sets ∨ g.achieved = true) := by
  have ht0 : g.target_sets ≠ 0 := by omega
  have htQ : (0 : ℚ) < (g.target_sets : ℚ) := by
    exact_mod_cast Nat.pos_of_ne_zero ht0
  have hq : (0 : ℚ) ≤ ((g.current_achieved_sets : ℚ) / (g.target_sets : ℚ)) * 100 := by
    positivity
  have hmain : g.progress_percentage
      = min ⌊((g.current_achieved_sets : ℚ) / (g.target_sets : ℚ)) * 100⌋ 100 := by
    rw [Goal.progress_percentage, if_neg ht0, pyInt_eq_floor _ hq]
  refine ⟨hmain, ?_, rfl, ?_⟩
  · intro hge
    rw [hmain]
    have h1 : (1 : ℚ) ≤ (g.current_achieved_sets : ℚ) / (g.target_sets : ℚ) := by
      rw [le_div_iff₀ htQ]
      simpa using (by exact_mod_cast hge : (g.target_sets : ℚ) ≤ (g.current_achieved_sets : ℚ))
    have h100 : (100 : ℤ) ≤ ⌊((g.current_achieved_sets : ℚ) / (g.target_sets : ℚ)) * 100⌋ := by
      rw [Int.le_floor]
      push_cast
      nlinarith
    exact min_eq_right h100
  · simp [Goal.is_achieved]

/-- Witness for goal_v2_progress_spec: 2 of 3 sets achieved. -/
theorem goal_v2_progress_spec_witness :
    (Goal.mk none 1 100 5 3 2 80 "2025-01" false none).progress_percentage = 66 := by
  have h := goal_v2_progress_spec (Goal.mk none 1 100 5 3 2 80 "2025-01" false none)
    (by norm_num)
  rw [h.1]
  norm_num

/-- C10: the v2 progress percentage is total and always lies in [0, 100];
in particular a goal whose target_sets is 0 gets progress 0 rather than a
division by zero. -/
theorem goal_v2_progress_total (g : Goal) :
    0 ≤ g.progress_percentage ∧ g.progress_percentage ≤ 100 ∧
    ({ g with target_sets := 0 } : Goal).progress_percentage = 0 := by
  refine ⟨?_, ?_, by simp [Goal.progress_percentage]⟩
  · rw [Goal.progress_percentage]
    split_ifs with h0
    · exact le_refl 0
    · have hq : (0 : ℚ) ≤ ((g.current_achieved_sets : ℚ) / (g.target_sets : ℚ)) * 100 := by
        positivity
      rw [pyInt_eq_floor _ hq]
      exact le_min (Int.floor_nonneg.mpr hq) (by norm_num)
  · rw [Goal.progress_percentage]
    split_ifs with h0
    · norm_num
    · exact min_le_right _ _

/-- C6: for a legacy (v1) goal with non-negative current and target
weights, the progress percentage is min(floor(current / target * 100), 100)
when the target is positive and 0 when the target is non-positive, so it
lies in [0, 100], is 100 at current == target > 0, and is 0 at
current == 0 < target. -/
theorem legacy_goal_progress_spec (g : LegacyGoal)
    (hc : 0 ≤ g.current_weight) (ht : 0 ≤ g.target_weight) :
    (0 < g.target_weight →
        g.progress_percentage = min ⌊g.current_weight / g.target_weight * 100⌋ 100) ∧
    (g.target_weight ≤ 0 → g.progress_percentage = 0) ∧
    0 ≤ g.progress_percentage ∧ g.progress_percentage ≤ 100 ∧
    (0 < g.target_weight → g.current_weight = g.target_weight →
        g.progress_percentage = 100) ∧
    (0 < g.target_weight → g.current_weight = 0 → g.progress_percentage = 0) := by
  have hmain : 0 < g.target_weight →
      g.progress_percentage = min ⌊g.current_weight / g.target_weight * 100⌋ 100 := by
    intro hpos
    have hq : (0 : ℚ) ≤ g.current_weight / g.target_weight * 100 := by positivity
    rw [LegacyGoal.progress_percentage, if_neg (not_le.mpr hpos), pyInt_eq_floor _ hq]
  refine ⟨hmain, ?_, ?_, ?_, ?_, ?_⟩
  · intro hle
    rw [LegacyGoal.progress_percentage, if_pos hle]
  · rcases le_or_lt g.target_weight 0 with hle | hpos
    · rw [LegacyGoal.progress_percentage, if_pos hle]
    · have hq : (0 : ℚ) ≤ g.current_weight / g.target_weight * 100 := by positivity
      rw [hmain hpos]
      exact le_min (Int.floor_nonneg.mpr hq) (by norm_num)
  · rcases le_or_lt g.target_weight 0 with hle | hpos
    · rw [LegacyGoal.progress_percentage, if_pos hle]
      norm_num
    · rw [hmain hpos]
      exact min_le_right _ _
  · intro hpos heq
    rw [hmain hpos, heq, div_self (ne_of_gt hpos)]
    norm_num
  · intro hpos heq
    rw [hmain hpos, heq]
    norm_num

/-- Witness for legacy_goal_progress_spec: current 100 of target 100. -/
theorem legacy_goal_progress_spec_witness :
    (LegacyGoal.mk 1 1 100 100 "2025-01" false).progress_percentage = 100 := by
  have h := legacy_goal_progress_spec (LegacyGoal.mk 1 1 100 100 "2025-01" false)
    (by norm_num) (by norm_num)
  exact h.2.2.2.2.1 (by norm_num) rfl

/-- Counterexample to C4 as stated: for the workout dates
{today, today - 2} (with today = 0) the walk returns 2, not 1 — after the
first match the cursor moves to today - 1, and today - 2 matches the
cursor-minus-one arm of the guard, so a one-day gap extends rather than
breaks the streak. -/
theorem current_streak_gap_counterexample :
    calculate_current_streak 0 [0, -2] = 2 ∧ (2 : ℤ) ≠ 1 := by
  constructor
  · rfl
  · decide

/-- C4 amended: the streak walk returns 3 for dates
{today, today - 1, today - 2}, returns 2 (not 1) for {today, today - 2}
because a single-day gap is tolerated at every step of the walk, and
returns 0 when there are no workout dates. -/
theorem current_streak_examples (today : ℤ) :
    calculate_current_streak today [today, today - 1, today - 2] = 3 ∧
    calculate_current_streak today [today, today - 2] = 2 ∧
    calculate_current_streak today [] = 0 := by
  refine ⟨?_, ?_, rfl⟩ <;>
  · simp only [calculate_current_streak, streakScan]
    split_ifs <;> first | rfl | omega | simp_all

/-- Summing a pointwise sum of two maps splits into two sums. -/
lemma sum_map_add_nat (l : List ℕ) (f g : ℕ → ℕ) :
    (l.map (fun i => f i + g i)).sum = (l.map f).sum + (l.map g).sum := by
  induction l with
  | nil => rfl
  | cons a l ih =>
    simp only [List.map_cons, List.sum_cons, ih]
    omega

/-- The re-mapped weekday of any date lands in one of the 7 buckets. -/
lemma remap_weekday_lt (d : ℤ) : remap_weekday (sqlite_weekday d) < 7 := by
  have h : d % 7 < 7 := Int.emod_lt_of_pos d (by norm_num)
  have h0 : 0 ≤ d % 7 := Int.emod_nonneg d (by norm_num)
  rw [remap_weekday, sqlite_weekday]
  split_ifs <;> omega

/-- The indicator of a bucket below 7 sums to exactly 1 over the 7 buckets. -/
lemma sum_indicator_range (b : ℕ) (hb : b < 7) :
    ((List.range 7).map (fun i => if b = i then 1 else 0)).sum = 1 := by
  interval_cases b <;> decide

/-- Partitioning a list of dates over the 7 re-mapped weekday buckets
preserves its length. -/
lemma bucket_filter_sum (l : List ℤ) :
    ((List.range 7).map (fun i =>
        (l.filter (fun d => remap_weekday (sqlite_weekday d) == i)).length)).sum
      = l.length := by
  induction l with
  | nil => simp
  | cons a l ih =>
    have hstep : ∀ i : ℕ,
        (List.filter (fun d => remap_weekday (sqlite_weekday d) == i) (a :: l)).length
          = (if remap_weekday (sqlite_weekday a) = i then 1 else 0)
            + (List.filter (fun d => remap_weekday (sqlite_weekday d) == i) l).length := by
      intro i
      by_cases h : remap_weekday (sqlite_weekday a) = i
      · simp [List.filter_cons, h]
        omega
      · simp [List.filter_cons, h]
    simp only [hstep]
    rw [sum_map_add_nat (List.range 7)
        (fun i => if remap_weekday (sqlite_weekday a) = i then 1 else 0)
        (fun i => (List.filter (fun d => remap_weekday (sqlite_weekday d) == i) l).length)]
    rw [ih, sum_indicator_range _ (remap_weekday_lt a), List.length_cons]
    omega

/-- C5: the frequency analysis always returns exactly 7 weekday buckets,
indexed 0 (Monday) through 6 (Sunday) in order, and their counts sum to the
number of distinct workout dates examined, zero-valued buckets included. -/
theorem frequency_analysis_spec (dates : List ℤ) :
    (get_frequency_analysis dates).length = 7 ∧
    (get_frequency_analysis dates).map Prod.fst = List.range 7 ∧
    ((get_frequency_analysis dates).map Prod.snd).sum = dates.dedup.length := by
  refine ⟨by simp [get_frequency_analysis],
    by simp [get_frequency_analysis, Function.comp_def], ?_⟩
  rw [get_frequency_analysis, List.map_map]
  exact bucket_filter_sum dates.dedup

/-- Counterexample to C7 as stated: with one logged set whose stored
one-rep-max is 0 (weight 0 passes validation, and the Epley formula then
yields 0), the single-goal refresh does not overwrite current_weight even
though a maximum one-rep-max exists: the Python guard `if row and row[0]`
treats the value 0.0 as falsy.  The goal keeps current_weight 90 and the
operation reports False. -/
theorem single_goal_refresh_counterexample :
    max_one_rm_for_exercise [⟨1, 1, 1, 0, 5, some 0⟩] 1 = some 0 ∧
    update_goal_current_weight_from_records [⟨1, 1, 1, 0, 5, some 0⟩]
        [⟨1, 1, 120, 90, "2025-01", false⟩] 1
      = ([⟨1, 1, 120, 90, "2025-01", false⟩], false) := by
  exact ⟨rfl, rfl⟩

/-- C7 amended: the bulk refresh steps every goal with
bulk_goal_update_step, which overwrites current_weight only when the
exercise's maximum stored one-rep-max exists, is non-zero, and strictly
exceeds the stored value — so current_weight never decreases under the bulk
path; the single-goal refresh overwrites current_weight with the maximum
whenever one exists and is non-zero (a stored maximum of exactly 0 is
treated as absent by Python truthiness and triggers no overwrite). -/
theorem goal_refresh_spec (sets : List SetRow) (goals : List LegacyGoal)
    (goal_id : ℤ) (g : LegacyGoal) (m : ℚ)
    (hfind : goals.find? (fun h => h.id == goal_id) = some g)
    (hmax : max_one_rm_for_exercise sets g.exercise_id = some m)
    (hm : m ≠ 0) :
    (∀ h : LegacyGoal,
        h.current_weight ≤ ((bulk_goal_update_step sets h).1).current_weight) ∧
    ((update_goal_progress_from_recent_records sets goals).1
        = goals.map (fun h => (bulk_goal_update_step sets h).1)) ∧
    (∀ h : LegacyGoal, (bulk_goal_update_step sets h).1 ≠ h →
        ∃ v, max_one_rm_for_exercise sets h.exercise_id = some v ∧
          h.current_weight < v ∧
          ((bulk_goal_update_step sets h).1).current_weight = v) ∧
    (update_goal_current_weight_from_records sets goals goal_id
        = (goals.map (fun h => if h.id == goal_id then { h with current_weight := m }
            else h), true)) := by
  refine ⟨?_, rfl, ?_, ?_⟩
  · intro h
    rw [bulk_goal_update_step]
    split_ifs with hach
    · exact le_refl _
    · cases hmx : max_one_rm_for_exercise sets h.exercise_id with
      | none => exact le_refl _
      | some v =>
        simp only
        split_ifs with hcond
        · exact hcond.2.le
        · exact le_refl _
  · intro h hne
    rw [bulk_goal_update_step] at hne ⊢
    split_ifs at hne ⊢ with hach
    · exact absurd rfl hne
    · cases hmx : max_one_rm_for_exercise sets h.exercise_id with
      | none => rw [hmx] at hne; exact absurd rfl hne
      | some v =>
        rw [hmx] at hne
        dsimp only at hne ⊢
        split_ifs at hne ⊢ with hcond
        · exact ⟨v, rfl, hcond.2, rfl⟩
        · exact absurd rfl hne
  · rw [update_goal_current_weight_from_records, hfind]
    dsimp only
    rw [hmax]
    dsimp only
    rw [if_pos hm]

/-- Witness for goal_refresh_spec: one set with one-rep-max 100 and one
unachieved goal at current_weight 90 refreshed through the single path. -/
theorem goal_refresh_spec_witness :
    update_goal_current_weight_from_records [⟨1, 1, 1, 100, 1, some 100⟩]
        [⟨1, 1, 120, 90, "2025-01", false⟩] 1
      = ([⟨1, 1, 120, 100, "2025-01", false⟩], true) := by
  have h := goal_refresh_spec [⟨1, 1, 1, 100, 1, some 100⟩]
    [⟨1, 1, 120, 90, "2025-01", false⟩] 1 ⟨1, 1, 120, 90, "2025-01", false⟩ 100
    rfl rfl (by norm_num)
  rw [h.2.2.2]
  rfl

/-- Counterexample to C8 as stated: weight 0 is accepted by the weight
validation — WEIGHT_MIN is 0.0 and the check only rejects weights strictly
below it, so the zero weight (which is claimed rejected) passes. -/
theorem validate_weight_zero_counterexample :
    validate_weight 0 = (true, none) ∧ (0 : ℚ) ≤ 0 := by
  constructor
  · rw [validate_weight, WEIGHT_MIN, WEIGHT_MAX]
    norm_num
  · exact le_refl 0

/-- C8 amended: the reps validation rejects every reps <= 0, and the
weight validation rejects every strictly negative weight; weight 0 itself
is accepted, because WEIGHT_MIN = 0.0 and the check is weight < WEIGHT_MIN. -/
theorem validation_rejects_spec (r : ℤ) (w : ℚ) (hr : r ≤ 0) (hw : w < 0) :
    (validate_reps r).1 = false ∧ (validate_weight w).1 = false ∧
    (validate_weight 0).1 = true := by
  refine ⟨?_, ?_, by rw [validate_weight, WEIGHT_MIN, WEIGHT_MAX]; norm_num⟩
  · rw [validate_reps, if_pos]
    rw [REPS_MIN]
    omega
  · rw [validate_weight, if_pos]
    rw [WEIGHT_MIN]
    exact hw

/-- Witness for validation_rejects_spec at reps 0 and weight -1. -/
theorem validation_rejects_spec_witness :
    (validate_reps 0).1 = false ∧ (validate_weight (-1)).1 = false ∧
    (validate_weight 0).1 = true :=
  validation_rejects_spec 0 (-1) (by norm_num) (by norm_num)

/-- Counterexample to C9 as stated: on a persistence error both
store-boundary reads return plain default values rather than a failure
result — get_best_records returns the empty list and
get_workout_statistics returns the all-zero dict, each identical to what a
valid, empty store produces, so the defaults masquerade as valid data. -/
theorem store_boundary_counterexample :
    get_best_records (Except.error DbError.locked) = [] ∧
    get_best_records (Except.error DbError.locked)
        = get_best_records (Except.ok ([], [])) ∧
    get_workout_statistics (Except.error DbError.locked) = zeroStats ∧
    get_workout_statistics (Except.error DbError.locked)
        = get_workout_statistics (Except.ok ⟨[], [], 0⟩) := by
  exact ⟨rfl, rfl, rfl, rfl⟩

/-- C9 amended: when a persistence error occurs during get_best_records or
get_workout_statistics, the exception is swallowed at the store boundary
and a default value is returned to the caller (the empty record list, the
all-zero statistics dict), indistinguishable from the result of a
successful read of an empty store. -/
theorem store_boundary_error_defaults (e : DbError) :
    get_best_records (Except.error e) = [] ∧
    get_workout_statistics (Except.error e) = zeroStats ∧
    get_best_records (Except.error e) = get_best_records (Except.ok ([], [])) ∧
    get_workout_statistics (Except.error e)
        = get_workout_statistics (Except.ok ⟨[], [], 0⟩) := by
  exact ⟨rfl, rfl, rfl, rfl⟩

end GymTracker
